import Mathlib

/-!
Verification of the parallax head-tracking pipeline (`src/js/utils.js`,
`src/js/tracker.js`, `src/js/main.js`).

JavaScript numbers are modelled as exact rationals (`ℚ`); `Math.PI` is the
exact rational value of the IEEE-754 double that JavaScript evaluates it to.
Stateful classes become structures with explicit state passing; methods that
mutate `this` return the updated structure.  Rendering, DOM and MediaPipe
plumbing are out of scope: only the numeric state that the verified claims
concern is embedded.
-/

/-- `lerp` from `utils.js`: `current + (target - current) * factor`. -/
def lerp (current target factor : ℚ) : ℚ :=
  current + (target - current) * factor

/-- `clamp` from `utils.js`: `Math.max(min, Math.min(max, value))`. -/
def clamp (value min max : ℚ) : ℚ :=
  Max.max min (Min.min max value)

/-- The exact rational value of the IEEE-754 double `Math.PI`
(`0x400921FB54442D18`), i.e. `884279719003555 / 2^48`. -/
def mathPI : ℚ := 884279719003555 / 281474976710656

/-- State of `OneEuroFilter` (`utils.js`).  `xPrev`/`tPrev` are `null` in the
source until the first sample; `frequency` is re-estimated from the timestamp
gap on every non-first call. -/
structure OneEuroFilter where
  frequency : ℚ
  minCutoff : ℚ
  beta : ℚ
  dCutoff : ℚ
  xPrev : Option ℚ
  dxPrev : ℚ
  tPrev : Option ℚ
  deriving DecidableEq

namespace OneEuroFilter

/-- The `OneEuroFilter` constructor (defaults `60, 1.0, 0.007, 1.0`). -/
def init (frequency minCutoff beta dCutoff : ℚ) : OneEuroFilter :=
  { frequency := frequency, minCutoff := minCutoff, beta := beta,
    dCutoff := dCutoff, xPrev := none, dxPrev := 0, tPrev := none }

/-- `OneEuroFilter.alpha`: `1 / (1 + tau / te)` with `tau = 1/(2·π·cutoff)`
and `te = 1/frequency`. -/
def alpha (self : OneEuroFilter) (cutoff : ℚ) : ℚ :=
  let tau := 1 / (2 * mathPI * cutoff)
  let te := 1 / self.frequency
  1 / (1 + tau / te)

/-- `OneEuroFilter.filter`.  The caller always supplies the timestamp
explicitly (in the source a missing timestamp defaults to the wall clock,
which is outside the model).  On the first call the sample is stored and
returned unchanged.  Otherwise: `dt = t - tPrev` (JS arithmetic coerces a
`null` `tPrev` to `0`, hence `getD 0`), `frequency` becomes `1/dt` only when
`dt > 0`, the derivative uses a `1/60` fallback when `dt ≤ 0`, and the result
is the adaptive-cutoff low-pass of `x` against the previous filtered value,
stored back into `xPrev`.  Returns `(result, updated state)`. -/
def filter (self : OneEuroFilter) (x timestamp : ℚ) : ℚ × OneEuroFilter :=
  match self.xPrev with
  | none =>
      (x, { self with xPrev := some x, tPrev := some timestamp })
  | some xPrev =>
      let dt := timestamp - self.tPrev.getD 0
      let self1 : OneEuroFilter :=
        { self with
          frequency := if dt > 0 then 1 / dt else self.frequency,
          tPrev := some timestamp }
      let dx := (x - xPrev) / (if dt > 0 then dt else 1 / 60)
      let edx := self1.alpha self.dCutoff * dx
                 + (1 - self1.alpha self.dCutoff) * self.dxPrev
      let cutoff := self.minCutoff + self.beta * |edx|
      let result := self1.alpha cutoff * x + (1 - self1.alpha cutoff) * xPrev
      (result, { self1 with dxPrev := edx, xPrev := some result })

/-- `OneEuroFilter.reset`: `xPrev = null`, `dxPrev = 0`, `tPrev = null`. -/
def reset (self : OneEuroFilter) : OneEuroFilter :=
  { self with xPrev := none, dxPrev := 0, tPrev := none }

end OneEuroFilter

/-- The spec-side formula for the smoothing factor:
`alpha(c) = 1 / (1 + (1/(2·π·c)) / (1/estimatedFrequency))`.  Stated
independently of the source's `OneEuroFilter.alpha` so the two can be
compared. -/
def alphaSpec (estimatedFrequency c : ℚ) : ℚ :=
  1 / (1 + (1 / (2 * mathPI * c)) / (1 / estimatedFrequency))

/-- The numeric state of `FaceTracker` (`tracker.js`) relevant to tracking:
the smoothed normalized head position, the confidence score and the two
per-axis `OneEuroFilter`s.  Canvas/video/camera handles are out of scope. -/
structure FaceTracker where
  headX : ℚ
  headY : ℚ
  confidence : ℚ
  filterX : OneEuroFilter
  filterY : OneEuroFilter
  deriving DecidableEq

namespace FaceTracker

/-- The `FaceTracker` constructor: position `(0,0)`, confidence `0`, filters
`OneEuroFilter(60, 1.0, 0.007)` (so `dCutoff` keeps its default `1.0`). -/
def init : FaceTracker :=
  { headX := 0, headY := 0, confidence := 0,
    filterX := OneEuroFilter.init 60 1 (7/1000) 1,
    filterY := OneEuroFilter.init 60 1 (7/1000) 1 }

/-- `FaceTracker.onResults`, restricted to the numeric state.  The detection
result is abstracted to the nose-tip landmark (`landmarks[NOSE_TIP_INDEX]`):
`some (nx, ny)` when `multiFaceLandmarks` is non-empty, `none` otherwise.
`t` is the wall-clock timestamp the filters would read.  On a detection the
nose tip is recentred to `[-1, 1]`, both axes are filtered, and the
confidence jumps to `100`; on a miss the confidence decays by `5`, floored
at `0`.  Canvas drawing and callbacks are side-effect-free on this state. -/
def onResults (self : FaceTracker) (noseTip : Option (ℚ × ℚ)) (t : ℚ) :
    FaceTracker :=
  match noseTip with
  | some (nx, ny) =>
      let rawX := (nx - 0.5) * 2
      let rawY := (ny - 0.5) * 2
      let fx := self.filterX.filter rawX t
      let fy := self.filterY.filter rawY t
      { self with
        headX := fx.1, filterX := fx.2,
        headY := fy.1, filterY := fy.2,
        confidence := 100 }
  | none =>
      { self with confidence := Max.max 0 (self.confidence - 5) }

/-- `n` consecutive missed-detection cycles (`onResults` with no face);
the miss branch never reads the timestamp, fixed here to `0`. -/
def runMisses (self : FaceTracker) : ℕ → FaceTracker
  | 0 => self
  | n + 1 => (self.onResults none 0).runMisses n

end FaceTracker

/-- The camera state `ParallaxScene.updateCameraPosition` mutates
(`this.camera.position` in `main.js`); `z` is carried to show it is
untouched. -/
structure Camera where
  positionX : ℚ
  positionY : ℚ
  positionZ : ℚ
  deriving DecidableEq

/-- `ParallaxScene.updateCameraPosition` (`main.js`):
`camera.position.x = -headX * sensitivity`,
`camera.position.y = -headY * sensitivity * 0.5`.  The `lookAt(0,0,0)` call
only re-orients the camera and is outside the numeric model. -/
def ParallaxScene.updateCameraPosition (camera : Camera)
    (headX headY sensitivity : ℚ) : Camera :=
  { camera with
    positionX := -headX * sensitivity,
    positionY := -headY * sensitivity * 0.5 }

/-- `ParallaxScene.applyOffAxisProjection` (`main.js`), the frustum
computation.  The base bounds `left/right/top/bottom` are parameters: in the
source they come from `near * tan(fov/2)` and the window aspect ratio, which
are transcendental/environmental.  The function shifts the frustum by
`shiftX = headX * 0.5`, `shiftY = headY * 0.25` and returns the four bounds
passed to `makePerspective`. -/
def ParallaxScene.applyOffAxisProjection (left right top bottom : ℚ)
    (headX headY : ℚ) : ℚ × ℚ × ℚ × ℚ :=
  let shiftX := headX * 0.5
  let shiftY := headY * 0.25
  (left + shiftX, right + shiftX, top + shiftY, bottom + shiftY)

/-- State of `ParallaxController` (`tracker.js`): configuration plus the
smoothed position `(currentX, currentY)`. -/
structure ParallaxController where
  sensitivity : ℚ
  lerpFactor : ℚ
  enableOffAxis : Bool
  currentX : ℚ
  currentY : ℚ
  deriving DecidableEq

/-- The per-frame calls `ParallaxController.update` issues to the scene:
the `(clampedX, clampedY, sensitivity)` triple passed to
`updateCameraPosition`, and the `(clampedX, clampedY)` pair passed to
`applyOffAxisProjection` when off-axis projection is enabled (`none` when
disabled). -/
structure FrameEffects where
  cameraCall : ℚ × ℚ × ℚ
  offAxisCall : Option (ℚ × ℚ)
  deriving DecidableEq

namespace ParallaxController

/-- The `ParallaxController` constructor: `sensitivity = 2.0`,
`lerpFactor = 0.1`, `enableOffAxis = true`, position `(0,0)`. -/
def init : ParallaxController :=
  { sensitivity := 2, lerpFactor := 1/10, enableOffAxis := true,
    currentX := 0, currentY := 0 }

/-- `ParallaxController.update`: lerp the stored position toward the input,
store the UNCLAMPED result, clamp a copy to `[-1, 1]`, and forward the
clamped values (plus sensitivity) to the scene.  Returns the new controller
state together with the calls made to the scene. -/
def update (self : ParallaxController) (headX headY : ℚ) :
    ParallaxController × FrameEffects :=
  let currentX := lerp self.currentX headX self.lerpFactor
  let currentY := lerp self.currentY headY self.lerpFactor
  let clampedX := clamp currentX (-1) 1
  let clampedY := clamp currentY (-1) 1
  ({ self with currentX := currentX, currentY := currentY },
   { cameraCall := (clampedX, clampedY, self.sensitivity),
     offAxisCall :=
       if self.enableOffAxis then some (clampedX, clampedY) else none })

/-- `ParallaxController.setSensitivity`: clamp to `[0.5, 5.0]`. -/
def setSensitivity (self : ParallaxController) (value : ℚ) :
    ParallaxController :=
  { self with sensitivity := clamp value (1/2) 5 }

/-- `ParallaxController.setSmoothing`: clamp to `[0.01, 0.5]`. -/
def setSmoothing (self : ParallaxController) (value : ℚ) :
    ParallaxController :=
  { self with lerpFactor := clamp value (1/100) (1/2) }

/-- `ParallaxController.reset`: `currentX = 0`, `currentY = 0`. -/
def reset (self : ParallaxController) : ParallaxController :=
  { self with currentX := 0, currentY := 0 }

/-- Run a sequence of `update` calls, collecting the per-frame scene calls. -/
def run (self : ParallaxController) :
    List (ℚ × ℚ) → ParallaxController × List FrameEffects
  | [] => (self, [])
  | (hx, hy) :: rest =>
      let step := self.update hx hy
      let tail := step.1.run rest
      (tail.1, step.2 :: tail.2)

end ParallaxController

/-! ### Helper lemmas -/

lemma clamp_unit_bounds (v : ℚ) : -1 ≤ clamp v (-1) 1 ∧ clamp v (-1) 1 ≤ 1 := by
  unfold clamp
  exact ⟨le_max_left _ _, max_le (by norm_num) (min_le_left _ _)⟩

lemma confidence_decay_chain (c n : ℚ) (hn : 0 ≤ n) :
    Max.max 0 (Max.max 0 (c - 5) - 5 * n) = Max.max 0 (c - 5 * (n + 1)) := by
  rcases le_total (c - 5) 0 with h | h
  · rw [max_eq_left h, max_eq_left (by linarith), max_eq_left (by linarith)]
  · rw [max_eq_right h]
    ring_nf

lemma runMisses_confidence (n : ℕ) : ∀ tr : FaceTracker, 0 ≤ tr.confidence →
    (tr.runMisses n).confidence = Max.max 0 (tr.confidence - 5 * n) := by
  induction n with
  | zero =>
      intro tr h
      show tr.confidence = Max.max 0 (tr.confidence - 5 * (0 : ℕ))
      rw [Nat.cast_zero, mul_zero, sub_zero, max_eq_right h]
  | succ n ih =>
      intro tr h
      have h2 : (tr.onResults none 0).confidence
          = Max.max 0 (tr.confidence - 5) := rfl
      have h3 : 0 ≤ (tr.onResults none 0).confidence := by
        rw [h2]; exact le_max_left _ _
      calc (tr.runMisses (n + 1)).confidence
          = ((tr.onResults none 0).runMisses n).confidence := rfl
        _ = Max.max 0 ((tr.onResults none 0).confidence - 5 * n) := ih _ h3
        _ = Max.max 0 (Max.max 0 (tr.confidence - 5) - 5 * n) := by rw [h2]
        _ = Max.max 0 (tr.confidence - 5 * ((n : ℚ) + 1)) :=
            confidence_decay_chain tr.confidence n (Nat.cast_nonneg n)
        _ = Max.max 0 (tr.confidence - 5 * ((n + 1 : ℕ) : ℚ)) := by push_cast; ring_nf

lemma run_effects_clamped : ∀ (inputs : List (ℚ × ℚ)) (self : ParallaxController),
    ∀ eff ∈ (self.run inputs).2,
      (-1 ≤ eff.cameraCall.1 ∧ eff.cameraCall.1 ≤ 1) ∧
      (-1 ≤ eff.cameraCall.2.1 ∧ eff.cameraCall.2.1 ≤ 1) := by
  intro inputs
  induction inputs with
  | nil => intro self eff h; simp [ParallaxController.run] at h
  | cons hd tl ih =>
      intro self eff h
      obtain ⟨hx, hy⟩ := hd
      simp only [ParallaxController.run, List.mem_cons] at h
      rcases h with h | h
      · subst h
        exact ⟨clamp_unit_bounds _, clamp_unit_bounds _⟩
      · exact ih _ eff h

/-! ### Claim theorems -/

/-- C1: for every smoothed position `(x, y)` and sensitivity `s`,
`ParallaxScene.updateCameraPosition` sets `cameraX = -x * s` and
`cameraY = -y * s * 0.5`; in particular for `(0.5, 0.2)` and sensitivity
`2.0` it yields `cameraX = -1.0`, `cameraY = -0.2`. -/
theorem camera_mapping_C1 (cam : Camera) (x y s : ℚ) :
    ((ParallaxScene.updateCameraPosition cam x y s).positionX = -x * s ∧
     (ParallaxScene.updateCameraPosition cam x y s).positionY = -y * s * 0.5) ∧
    ((ParallaxScene.updateCameraPosition cam (1/2) (1/5) 2).positionX = -1 ∧
     (ParallaxScene.updateCameraPosition cam (1/2) (1/5) 2).positionY = -(1/5)) := by
  refine ⟨⟨rfl, rfl⟩, ?_, ?_⟩ <;>
    norm_num [ParallaxScene.updateCameraPosition]

/-- C3: a freshly constructed `OneEuroFilter`, or one just reset, returns its
first sample `x` unchanged from `filter`, for any timestamp. -/
theorem first_sample_passthrough_C3
    (frequency minCutoff beta dCutoff x t : ℚ) (f : OneEuroFilter) :
    ((OneEuroFilter.init frequency minCutoff beta dCutoff).filter x t).1 = x ∧
    ((f.reset).filter x t).1 = x :=
  ⟨rfl, rfl⟩

/-- C7 counterexample: after two `filter` calls with a positive timestamp gap
of `1/2`s, the frequency estimate becomes `2`; `reset` does not restore it to
the constructor value `60`, so the post-reset state is NOT equal to the
freshly constructed state. -/
theorem reset_fresh_counterexample_C7 :
    (((OneEuroFilter.init 60 1 (7/1000) 1).filter 0 0).2.filter 1 (1/2)).2.reset
      ≠ OneEuroFilter.init 60 1 (7/1000) 1 := by
  intro h
  have hf := congrArg OneEuroFilter.frequency h
  have h1 : ((OneEuroFilter.init 60 1 (7/1000) 1).filter 0 0).2
      = { frequency := 60, minCutoff := 1, beta := 7/1000, dCutoff := 1,
          xPrev := some 0, dxPrev := 0, tPrev := some 0 } := rfl
  rw [h1] at hf
  norm_num [OneEuroFilter.filter, OneEuroFilter.reset, OneEuroFilter.init] at hf

/-- C7 (amended): `reset` is idempotent and clears `xPrev`, `dxPrev`, `tPrev`
to their freshly-constructed values, leaving all configuration fields
unchanged, so the next `filter` call behaves as a first call; the frequency
estimate however retains its current value instead of reverting to the
constructor argument. -/
theorem reset_idempotent_C7 (f : OneEuroFilter) (x t : ℚ) :
    f.reset.reset = f.reset ∧
    f.reset.xPrev = none ∧ f.reset.dxPrev = 0 ∧ f.reset.tPrev = none ∧
    f.reset.frequency = f.frequency ∧
    f.reset.minCutoff = f.minCutoff ∧
    f.reset.beta = f.beta ∧
    f.reset.dCutoff = f.dCutoff ∧
    ((f.reset).filter x t).1 = x :=
  ⟨rfl, rfl, rfl, rfl, rfl, rfl, rfl, rfl, rfl⟩

/-- C8: `ParallaxController.reset` snaps the smoothed position to `(0, 0)`
and changes nothing else: the whole post-reset state equals the old state
with only `currentX`/`currentY` replaced, and `sensitivity`, `lerpFactor`,
`enableOffAxis` keep their values.  The call takes and returns only the
controller state, so filter state and confidence (owned by `FaceTracker`)
are untouched by construction. -/
theorem controller_reset_C8 (self : ParallaxController) :
    self.reset = { self with currentX := 0, currentY := 0 } ∧
    self.reset.currentX = 0 ∧ self.reset.currentY = 0 ∧
    self.reset.sensitivity = self.sensitivity ∧
    self.reset.lerpFactor = self.lerpFactor ∧
    self.reset.enableOffAxis = self.enableOffAxis :=
  ⟨rfl, rfl, rfl, rfl, rfl, rfl⟩

/-- C2: over any sequence of `ParallaxController.update` calls from the
initial state with inputs in `[-1, 1]`, every clamped per-axis value passed
onward lies in `[-1, 1]`, and each forwarded pair is exactly the lerp of the
stored position toward the input followed by a clamp to `[-1, 1]`. -/
theorem smoother_bounded_C2 (inputs : List (ℚ × ℚ))
    (_hin : ∀ p ∈ inputs, (-1 ≤ p.1 ∧ p.1 ≤ 1) ∧ (-1 ≤ p.2 ∧ p.2 ≤ 1)) :
    (∀ eff ∈ (ParallaxController.init.run inputs).2,
       (-1 ≤ eff.cameraCall.1 ∧ eff.cameraCall.1 ≤ 1) ∧
       (-1 ≤ eff.cameraCall.2.1 ∧ eff.cameraCall.2.1 ≤ 1)) ∧
    (∀ (self : ParallaxController) (hx hy : ℚ),
       (self.update hx hy).2.cameraCall =
         (clamp (lerp self.currentX hx self.lerpFactor) (-1) 1,
          clamp (lerp self.currentY hy self.lerpFactor) (-1) 1,
          self.sensitivity)) :=
  ⟨run_effects_clamped inputs ParallaxController.init,
   fun _ _ _ => rfl⟩

/-- C2 witness: the bound holds on the concrete input sequence
`[(1, -1), (1/2, 1/2)]`, whose entries lie in `[-1, 1]`. -/
theorem smoother_bounded_C2_witness :
    (∀ p ∈ [((1 : ℚ), (-1 : ℚ)), (1/2, 1/2)],
       (-1 ≤ p.1 ∧ p.1 ≤ 1) ∧ (-1 ≤ p.2 ∧ p.2 ≤ 1)) ∧
    (∀ eff ∈ (ParallaxController.init.run [(1, -1), (1/2, 1/2)]).2,
       (-1 ≤ eff.cameraCall.1 ∧ eff.cameraCall.1 ≤ 1) ∧
       (-1 ≤ eff.cameraCall.2.1 ∧ eff.cameraCall.2.1 ≤ 1)) :=
  ⟨by norm_num [List.forall_mem_cons],
   (smoother_bounded_C2 [(1, -1), (1/2, 1/2)]
     (by norm_num [List.forall_mem_cons])).1⟩

/-- C10 (implicit): clamping applies only to the values forwarded to the
renderer, never to the stored state: every forwarded per-axis value lies in
`[-1, 1]` for arbitrary inputs, while the stored `currentX`/`currentY` equal
the unclamped lerp result; concretely, after `update 20 0` from the initial
state the stored `currentX` is `2 > 1` while the forwarded value is clamped
to `1`. -/
theorem clamp_forwarded_only_C10 (self : ParallaxController) (hx hy : ℚ) :
    ((-1 ≤ (self.update hx hy).2.cameraCall.1 ∧
      (self.update hx hy).2.cameraCall.1 ≤ 1) ∧
     (-1 ≤ (self.update hx hy).2.cameraCall.2.1 ∧
      (self.update hx hy).2.cameraCall.2.1 ≤ 1) ∧
     (∀ q ∈ (self.update hx hy).2.offAxisCall,
        (-1 ≤ q.1 ∧ q.1 ≤ 1) ∧ (-1 ≤ q.2 ∧ q.2 ≤ 1))) ∧
    ((self.update hx hy).1.currentX = lerp self.currentX hx self.lerpFactor ∧
     (self.update hx hy).1.currentY = lerp self.currentY hy self.lerpFactor) ∧
    (1 < (ParallaxController.init.update 20 0).1.currentX ∧
     (ParallaxController.init.update 20 0).2.cameraCall.1 = 1) := by
  have hcur : (ParallaxController.init.update 20 0).1.currentX
      = lerp ParallaxController.init.currentX 20 ParallaxController.init.lerpFactor := rfl
  have hcam : (ParallaxController.init.update 20 0).2.cameraCall.1
      = clamp (lerp ParallaxController.init.currentX 20
          ParallaxController.init.lerpFactor) (-1) 1 := rfl
  have hlerp : lerp ParallaxController.init.currentX 20
      ParallaxController.init.lerpFactor = 2 := by
    norm_num [lerp, ParallaxController.init]
  refine ⟨⟨clamp_unit_bounds _, clamp_unit_bounds _, ?_⟩, ⟨rfl, rfl⟩, ?_, ?_⟩
  · intro q hq
    simp only [ParallaxController.update] at hq
    rcases h : self.enableOffAxis with _ | _ <;> rw [h] at hq
    · simp at hq
    · simp at hq
      subst hq
      exact ⟨clamp_unit_bounds _, clamp_unit_bounds _⟩
  · rw [hcur, hlerp]; norm_num
  · rw [hcam, hlerp]
    unfold clamp
    rw [min_eq_left (by norm_num), max_eq_right (by norm_num)]

/-- C4: a detection cycle with a face sets the confidence to exactly `100`;
a miss sets it to `max(0, score - 5)`, so misses strictly decrease a positive
score, `20` consecutive misses from `100` reach `0`, one detection after any
number of misses restores `100`, and the score stays in `[0, 100]`. -/
theorem confidence_score_C4 (tr : FaceTracker) (nose : ℚ × ℚ) (t : ℚ)
    (h0 : 0 ≤ tr.confidence) (h100 : tr.confidence ≤ 100) :
    (tr.onResults (some nose) t).confidence = 100 ∧
    (tr.onResults none t).confidence = Max.max 0 (tr.confidence - 5) ∧
    (0 < tr.confidence → (tr.onResults none t).confidence < tr.confidence) ∧
    (tr.confidence = 100 → (tr.runMisses 20).confidence = 0) ∧
    (∀ n : ℕ, ((tr.runMisses n).onResults (some nose) t).confidence = 100) ∧
    (0 ≤ (tr.onResults (some nose) t).confidence ∧
     (tr.onResults (some nose) t).confidence ≤ 100) ∧
    (0 ≤ (tr.onResults none t).confidence ∧
     (tr.onResults none t).confidence ≤ 100) := by
  obtain ⟨nx, ny⟩ := nose
  have hdet : ∀ s : FaceTracker,
      (s.onResults (some (nx, ny)) t).confidence = 100 := fun _ => rfl
  have hmiss : (tr.onResults none t).confidence
      = Max.max 0 (tr.confidence - 5) := rfl
  refine ⟨hdet tr, hmiss, ?_, ?_, fun n => hdet _, ?_, ?_⟩
  · intro hpos
    rw [hmiss]
    exact max_lt hpos (by linarith)
  · intro heq
    rw [runMisses_confidence 20 tr h0, heq]
    norm_num
  · rw [hdet tr]
    norm_num
  · rw [hmiss]
    exact ⟨le_max_left _ _, max_le (by norm_num) (by linarith)⟩

/-- C4 witness: from the freshly constructed tracker (confidence `0`, which
is in `[0, 100]`), a detection yields confidence `100` and a miss yields
`max(0, 0 - 5)`. -/
theorem confidence_score_C4_witness :
    (0 ≤ FaceTracker.init.confidence ∧ FaceTracker.init.confidence ≤ 100) ∧
    (FaceTracker.init.onResults (some (0, 0)) 0).confidence = 100 ∧
    (FaceTracker.init.onResults none 0).confidence
      = Max.max 0 (FaceTracker.init.confidence - 5) :=
  ⟨⟨by norm_num [FaceTracker.init], by norm_num [FaceTracker.init]⟩,
   (confidence_score_C4 FaceTracker.init (0, 0) 0
     (by norm_num [FaceTracker.init]) (by norm_num [FaceTracker.init])).1,
   (confidence_score_C4 FaceTracker.init (0, 0) 0
     (by norm_num [FaceTracker.init]) (by norm_num [FaceTracker.init])).2.1⟩

/-- C5: on a non-first `filter` call with elapsed time `dt ≤ 0`, the stored
frequency estimate keeps its previous value, and the derivative is computed
against the `1/60` s fallback interval instead of `dt`. -/
theorem dt_fallback_C5 (f : OneEuroFilter) (x t p : ℚ)
    (hprev : f.xPrev = some p) (hdt : t - f.tPrev.getD 0 ≤ 0) :
    (f.filter x t).2.frequency = f.frequency ∧
    (f.filter x t).2.dxPrev =
      f.alpha f.dCutoff * ((x - p) / (1 / 60))
        + (1 - f.alpha f.dCutoff) * f.dxPrev := by
  have hnot : ¬ (t - f.tPrev.getD 0 > 0) := not_lt.mpr hdt
  simp only [OneEuroFilter.filter, hprev, OneEuroFilter.alpha, if_neg hnot]
  exact ⟨trivial, trivial⟩

/-- Concrete non-first filter state for exercising the `dt ≤ 0` path:
last sample `2` at time `5`. -/
def fC5 : OneEuroFilter :=
  { frequency := 60, minCutoff := 1, beta := 7/1000, dCutoff := 1,
    xPrev := some 2, dxPrev := 0, tPrev := some 5 }

/-- C5 witness: calling `filter 3` at time `3` on `fC5` (so `dt = -2 ≤ 0`)
keeps the frequency and uses the `1/60` fallback for the derivative. -/
theorem dt_fallback_C5_witness :
    fC5.xPrev = some 2 ∧ ((3 : ℚ) - fC5.tPrev.getD 0 ≤ 0) ∧
    ((fC5.filter 3 3).2.frequency = fC5.frequency ∧
     (fC5.filter 3 3).2.dxPrev =
       fC5.alpha fC5.dCutoff * (((3 : ℚ) - 2) / (1 / 60))
         + (1 - fC5.alpha fC5.dCutoff) * fC5.dxPrev) :=
  ⟨rfl, by norm_num [fC5], dt_fallback_C5 fC5 3 3 2 rfl (by norm_num [fC5])⟩

/-- C6: on a non-first `filter` call the returned value is
`alpha(cutoff) * x + (1 - alpha(cutoff)) * previousFilteredValue` with
`cutoff = minCutoff + beta * |filteredDerivative|`, the filtered derivative
being the `dCutoff`-low-passed raw derivative, and
`alpha(c) = 1 / (1 + (1/(2·π·c)) / (1/estimatedFrequency))`; the result is
stored as the new previous filtered value. -/
theorem filter_formula_C6 (f : OneEuroFilter) (x t p : ℚ)
    (hprev : f.xPrev = some p) :
    ((f.filter x t).1 =
      (let dt := t - f.tPrev.getD 0
       let estimatedFrequency := if dt > 0 then 1 / dt else f.frequency
       let rawDerivative := (x - p) / (if dt > 0 then dt else 1 / 60)
       let filteredDerivative :=
         alphaSpec estimatedFrequency f.dCutoff * rawDerivative
           + (1 - alphaSpec estimatedFrequency f.dCutoff) * f.dxPrev
       let cutoff := f.minCutoff + f.beta * |filteredDerivative|
       alphaSpec estimatedFrequency cutoff * x
         + (1 - alphaSpec estimatedFrequency cutoff) * p)) ∧
    (f.filter x t).2.xPrev = some ((f.filter x t).1) := by
  constructor <;>
    simp only [OneEuroFilter.filter, hprev, OneEuroFilter.alpha, alphaSpec]

/-- Concrete non-first filter state for exercising the formula path:
last filtered value `1` at time `0`. -/
def fC6 : OneEuroFilter :=
  { frequency := 60, minCutoff := 1, beta := 7/1000, dCutoff := 1,
    xPrev := some 1, dxPrev := 0, tPrev := some 0 }

/-- C6 witness: on `fC6` (a non-first state), a `filter` call stores its own
result as the new previous filtered value. -/
theorem filter_formula_C6_witness :
    fC6.xPrev = some 1 ∧
    (fC6.filter 2 (1/60)).2.xPrev = some ((fC6.filter 2 (1/60)).1) :=
  ⟨rfl, (filter_formula_C6 fC6 2 (1/60) 1 rfl).2⟩

/-- C9: with off-axis projection enabled, `update` forwards the clamped
smoothed position to `applyOffAxisProjection`, which shifts the frustum by
`shiftX = x * 0.5` and `shiftY = y * 0.25`; the constant `k_x = 0.5` is
smaller than the default camera-translation sensitivity `2.0`; with off-axis
projection disabled, no frustum shift is applied. -/
theorem offaxis_shift_C9 (self : ParallaxController) (hx hy : ℚ)
    (left right top bottom : ℚ) :
    (self.enableOffAxis = true →
      (self.update hx hy).2.offAxisCall =
        some (clamp (lerp self.currentX hx self.lerpFactor) (-1) 1,
              clamp (lerp self.currentY hy self.lerpFactor) (-1) 1)) ∧
    (self.enableOffAxis = false →
      (self.update hx hy).2.offAxisCall = none) ∧
    (∀ sx sy : ℚ,
      ParallaxScene.applyOffAxisProjection left right top bottom sx sy =
        (left + sx * 0.5, right + sx * 0.5,
         top + sy * 0.25, bottom + sy * 0.25)) ∧
    ((1/2 : ℚ) < ParallaxController.init.sensitivity) := by
  have hcall : (self.update hx hy).2.offAxisCall =
      if self.enableOffAxis then
        some (clamp (lerp self.currentX hx self.lerpFactor) (-1) 1,
              clamp (lerp self.currentY hy self.lerpFactor) (-1) 1)
      else none := rfl
  refine ⟨?_, ?_, fun sx sy => rfl, by norm_num [ParallaxController.init]⟩
  · intro h
    rw [hcall, h, if_pos rfl]
  · intro h
    rw [hcall, h]
    simp

/-- C9 witness: the initial controller has off-axis projection enabled, and
its first `update` call does forward the clamped position pair. -/
theorem offaxis_shift_C9_witness :
    ParallaxController.init.enableOffAxis = true ∧
    (ParallaxController.init.update 0 0).2.offAxisCall =
      some (clamp (lerp ParallaxController.init.currentX 0
              ParallaxController.init.lerpFactor) (-1) 1,
            clamp (lerp ParallaxController.init.currentY 0
              ParallaxController.init.lerpFactor) (-1) 1) :=
  ⟨rfl, (offaxis_shift_C9 ParallaxController.init 0 0 0 0 0 0).1 rfl⟩
